import Mathlib

/-!
Shallow embedding of the IMU-Visualiser ingestion/render pipeline
(`src/imu_visualiser.py`, `src/connection_workers.py`).

Python float arithmetic is idealised as exact real arithmetic; Python
`time.time()` values (floats, hence dyadic rationals) are modelled as `ℚ`.
Only the pipeline state named by the claims is modelled: the status
indicator (`status_indicator._status` strings "error" / "connecting" / "ok"
plus the `info_label` text), worker and timer run flags, the
`last_packet_timestamp`, and the per-IMU maps `imu_data`, `vis_widgets`,
`vis_panels`, `new_data_imu_ids`.
-/

/-- A quaternion sample: 4 real components (w, x, y, z), mirroring the
four floats handled by `imu_visualiser.py`. -/
structure Quat where
  w : ℝ
  x : ℝ
  y : ℝ
  z : ℝ

/-- `q0**2 + q1**2 + q2**2 + q3**2`, the radicand of the norm computed at
`imu_visualiser.py:373` and `:414`. -/
noncomputable def Quat.normSq (q : Quat) : ℝ :=
  q.w ^ 2 + q.x ^ 2 + q.y ^ 2 + q.z ^ 2

/-- `norm = np.sqrt(q0**2 + q1**2 + q2**2 + q3**2)` (`imu_visualiser.py:373`). -/
noncomputable def Quat.norm (q : Quat) : ℝ :=
  Real.sqrt q.normSq

/-- `q0, q1, q2, q3 = q0 / norm, q1 / norm, q2 / norm, q3 / norm`
(`imu_visualiser.py:376` and `:416`): component-wise division by the norm. -/
noncomputable def Quat.normalize (q : Quat) : Quat :=
  ⟨q.w / q.norm, q.x / q.norm, q.y / q.norm, q.z / q.norm⟩

/-- Little-endian byte-list to natural number (each byte taken mod 256). -/
def leNat (bs : List Nat) : Nat :=
  bs.foldr (fun b acc => b % 256 + 256 * acc) 0

/-- IEEE-754 binary32 decode of 4 little-endian bytes, as performed by
`struct.unpack("<Bffff", ...)` on each float field (`imu_visualiser.py:371`),
idealised into `ℝ`. Exponent-255 bit patterns (IEEE Inf/NaN) have no real
counterpart; this model extends the normal-form formula to them. No claim
constrains such patterns. -/
noncomputable def decodeF32 (bs : List Nat) : ℝ :=
  let n := leNat bs
  let s : ℝ := if n / 2 ^ 31 % 2 = 1 then -1 else 1
  let e : Nat := n / 2 ^ 23 % 256
  let m : Nat := n % 2 ^ 23
  if e = 0 then s * ((m : ℝ) / 2 ^ 23) * (2 : ℝ) ^ (-126 : ℤ)
  else s * (1 + (m : ℝ) / 2 ^ 23) * (2 : ℝ) ^ ((e : ℤ) - 127)

/-- `PACKET_SIZE = struct.calcsize("<Bffff")` = 1 + 4·4 = 17
(`imu_visualiser.py:41`). -/
def PACKET_SIZE : Nat := 17

/-- The `imu_id` byte of a binary packet: first byte of `<Bffff`
(`imu_visualiser.py:371`). -/
def unpackId (p : List Nat) : Nat :=
  p.headD 0 % 256

/-- The four float fields of a binary packet, little-endian at offsets
1, 5, 9, 13 (`imu_visualiser.py:371`, wire format `<Bffff`). -/
noncomputable def rawQuat (p : List Nat) : Quat :=
  ⟨decodeF32 ((p.drop 1).take 4), decodeF32 ((p.drop 5).take 4),
   decodeF32 ((p.drop 9).take 4), decodeF32 ((p.drop 13).take 4)⟩

/-- The status values taken by `StatusIndicator._status`
(`ui_components.py:75`, `:79-88`): "error", "connecting", "ok". The
"Disconnected" label is displayed with status "error"
(`imu_visualiser.py:319`). -/
inductive StatusKind where
  | error
  | connecting
  | ok
deriving DecidableEq, Repr

/-- The kind of log line emitted through `log_entry_created`
(`imu_visualiser.py:398`, `:429`). The exact float formatting of the
Python f-strings is elided; the successful binary entry records the RAW
(pre-normalization) quaternion, as `decoded_string` is built at
`imu_visualiser.py:372` before the division by the norm. -/
inductive LogText where
  | packetData (id : Nat) (q : Quat)
  | zeroNorm (id : Nat)
  | idOutOfRange (id : Nat)
  | malformed (got : Nat)
  | serialLine (line : String)

/-- One `log_entry_created.emit(text, parsed_successfully)` event
(`imu_visualiser.py:38`). -/
structure LogEntry where
  text : LogText
  parsed : Bool

/-- The pipeline-relevant state of `IMUVisualiser`.  `imuData` is
`imu_data` (`{imu_id: QQuaternion}`), `visWidgets` and `visPanels` record
key membership in `vis_widgets` / `vis_panels`, `newDataIds` is the
`new_data_imu_ids` dirty set, and the Bool flags model
`connection_worker.isRunning()`, `connection_timeout_timer.isActive()`,
`render_timer.isActive()`. -/
structure AppState where
  status : StatusKind
  infoText : String
  workerRunning : Bool
  timeoutTimerOn : Bool
  renderTimerOn : Bool
  lastPacketTimestamp : ℚ
  imuData : Nat → Option Quat
  visWidgets : Nat → Bool
  visPanels : Nat → Bool
  newDataIds : Nat → Bool

/-- The app state right after `IMUVisualiser.__init__`
(`imu_visualiser.py:43-80`): no worker, timers created but not started,
`last_packet_timestamp = 0`, all per-IMU maps empty, indicator status
"error" (its default, `ui_components.py:75`). -/
noncomputable def initState : AppState where
  status := .error
  infoText := ""
  workerRunning := false
  timeoutTimerOn := false
  renderTimerOn := false
  lastPacketTimestamp := 0
  imuData := fun _ => none
  visWidgets := fun _ => false
  visPanels := fun _ => false
  newDataIds := fun _ => false

/-- `IMUVisualiser.add_new_imu` (`imu_visualiser.py:327-356`): if the id is
already in `vis_widgets`, return unchanged; otherwise seed
`imu_data[imu_id] = QQuaternion(1,0,0,0)` and create the widget and panel
entries for the id. -/
noncomputable def add_new_imu (st : AppState) (i : Nat) : AppState :=
  if st.visWidgets i then st
  else
    { st with
      imuData := fun j => if j = i then some ⟨1, 0, 0, 0⟩ else st.imuData j,
      visWidgets := fun j => if j = i then true else st.visWidgets j,
      visPanels := fun j => if j = i then true else st.visPanels j }

/-- `IMUVisualiser.clear_imu_widgets` (`imu_visualiser.py:219-243`): all of
`vis_panels`, `vis_widgets`, `imu_data`, `new_data_imu_ids` are emptied. -/
noncomputable def clear_imu_widgets (st : AppState) : AppState :=
  { st with
    imuData := fun _ => none,
    visWidgets := fun _ => false,
    visPanels := fun _ => false,
    newDataIds := fun _ => false }

/-- The common prefix of `handle_received_packet` / `handle_received_line`
(`imu_visualiser.py:361-364`, `:404-407`): stamp `last_packet_timestamp =
time.time()`, and if the indicator status is "connecting", set the label to
("Connected", "ok") and start `connection_timeout_timer`. -/
noncomputable def markReceipt (st : AppState) (now : ℚ) : AppState :=
  let st1 := { st with lastPacketTimestamp := now }
  if st1.status = .connecting then
    { st1 with status := .ok, infoText := "Connected", timeoutTimerOn := true }
  else st1

/-- The registry store step (`imu_visualiser.py:382-386`, `:420-424`): the
id's `imu_data` entry is overwritten in place with the normalized
quaternion and the id is added to `new_data_imu_ids`. -/
noncomputable def storeSample (st : AppState) (i : Nat) (q : Quat) : AppState :=
  { st with
    imuData := fun j => if j = i then some q.normalize else st.imuData j,
    newDataIds := fun j => if j = i then true else st.newDataIds j }

/-- `IMUVisualiser.handle_received_packet` (`imu_visualiser.py:358-398`),
returning the new state and the emitted log entry. The Python body cannot
raise out of the handler (the length test guards `struct.unpack`, and a
blanket `except` guards the rest), which the totality of this function
models. -/
noncomputable def handle_received_packet (st : AppState) (now : ℚ)
    (packet : List Nat) : AppState × LogEntry :=
  let st := markReceipt st now
  if packet.length = PACKET_SIZE then
    let i := unpackId packet
    let q := rawQuat packet
    if q.norm > 1e-6 then
      let st1 := if (st.imuData i).isNone then add_new_imu st i else st
      if (st1.imuData i).isSome then
        (storeSample st1 i q, ⟨.packetData i q, true⟩)
      else
        (st1, ⟨.idOutOfRange i, false⟩)
    else
      (st, ⟨.zeroNorm i, false⟩)
  else
    (st, ⟨.malformed packet.length, false⟩)

/-- The quaternion built from the four parsed ASCII fields
(`imu_visualiser.py:413`): `q0, q1, q2, q3 = parts`. -/
noncomputable def quatOfList (vs : List ℚ) : Quat :=
  ⟨(vs.getD 0 0 : ℚ), (vs.getD 1 0 : ℚ), (vs.getD 2 0 : ℚ), (vs.getD 3 0 : ℚ)⟩

/-- `IMUVisualiser.handle_received_line` (`imu_visualiser.py:400-431`).
The Python float-parsing of the comma-split fields
(`[float(p.strip()) for p in line.split(",")]`) is taken as an input:
`elems? = some vs` when every field parses (values are Python floats,
hence rationals), `none` when a `ValueError` aborts the comprehension.
The store step at `imu_visualiser.py:420-423` mutates `imu_data[0]`
without re-checking membership; it is modelled as an unconditional
overwrite — after `add_new_imu`, id 0 is always present in states
reachable by the app. -/
noncomputable def handle_received_line (st : AppState) (now : ℚ)
    (line : String) (elems? : Option (List ℚ)) : AppState × LogEntry :=
  let i : Nat := 0
  let st := markReceipt st now
  let result :=
    match elems? with
    | some vs =>
      if vs.length = 4 then
        let q : Quat := quatOfList vs
        if q.norm > 1e-6 then
          let st1 := if (st.imuData i).isNone then add_new_imu st i else st
          (storeSample st1 i q, true)
        else (st, false)
      else (st, false)
    | none => (st, false)
  (result.1, ⟨.serialLine line, result.2⟩)

/-- `IMUVisualiser.update_gl_and_ui` (`imu_visualiser.py:433-448`): for
every dirty id present in both `vis_widgets` and `imu_data`, hand the
stored quaternion to the widget and call `render()` once; afterwards clear
the whole dirty set. The second component maps each id to `some q` exactly
when one render call with quaternion `q` happened for it this tick, and to
`none` when no render call happened for it. -/
noncomputable def update_gl_and_ui (st : AppState) :
    AppState × (Nat → Option Quat) :=
  ({ st with newDataIds := fun _ => false },
   fun i =>
     if st.newDataIds i && st.visWidgets i && (st.imuData i).isSome then
       st.imuData i
     else none)

/-- `IMUVisualiser.handle_serial_error` (`imu_visualiser.py:301-307`):
stop both timers, show the error message with status "error", and stop the
worker if it is running. -/
noncomputable def handle_serial_error (st : AppState) (msg : String) : AppState :=
  { st with
    timeoutTimerOn := false,
    renderTimerOn := false,
    status := .error,
    infoText := msg,
    workerRunning := false }

/-- `IMUVisualiser.check_connection_timeout` (`imu_visualiser.py:295-299`):
once per second, if a worker is running and `time.time() -
last_packet_timestamp > 2.0`, stop the render timer and invoke
`handle_serial_error("Connection timed out")`. -/
noncomputable def check_connection_timeout (st : AppState) (now : ℚ) : AppState :=
  if st.workerRunning then
    if now - st.lastPacketTimestamp > 2 then
      handle_serial_error { st with renderTimerOn := false } "Connection timed out"
    else st
  else st

/-- `IMUVisualiser.on_worker_finished` (`imu_visualiser.py:309-325`): stop
both timers; if the indicator status is not "error", set the label to
("Disconnected", "error"); drop the worker reference. -/
noncomputable def on_worker_finished (st : AppState) : AppState :=
  let st := { st with timeoutTimerOn := false, renderTimerOn := false }
  let st :=
    if st.status ≠ .error then
      { st with status := .error, infoText := "Disconnected" }
    else st
  { st with workerRunning := false }

/-- The `for i in range(num_imus): self.add_new_imu(i)` loop of
`toggle_connection` (`imu_visualiser.py:259-260`). -/
noncomputable def addImus (st : AppState) (n : Nat) : AppState :=
  (List.range n).foldl add_new_imu st

/-- `IMUVisualiser.toggle_connection` (`imu_visualiser.py:245-293`).
`isTest` is `test_mode_check.isChecked()`; `portSel` is whether
`port_combo.currentText()` is non-empty. Disconnect branch: stop worker
and both timers, clear the per-IMU widgets/data. Connect branch: clear,
pre-allocate `numImus` ids, set the ("Listening (UDP)...", "connecting")
or ("Connecting...", "connecting") label, start the worker, stamp
`last_packet_timestamp = time.time()`, and start the render timer — the
timeout timer is NOT started here. -/
noncomputable def toggle_connection (st : AppState) (isTest : Bool)
    (portSel : Bool) (numImus : Nat) (now : ℚ) : AppState :=
  if st.workerRunning then
    clear_imu_widgets
      { st with workerRunning := false, timeoutTimerOn := false, renderTimerOn := false }
  else
    let st1 := addImus (clear_imu_widgets st) numImus
    if isTest then
      { st1 with
        status := .connecting, infoText := "Listening (UDP)...",
        workerRunning := true, lastPacketTimestamp := now, renderTimerOn := true }
    else if portSel then
      { st1 with
        status := .connecting, infoText := "Connecting...",
        workerRunning := true, lastPacketTimestamp := now, renderTimerOn := true }
    else
      { st1 with status := .error, infoText := "No port selected!" }

/-- Signals emitted by the connection workers (`connection_workers.py`). -/
inductive WorkerMsg where
  | lineReceived (s : String)
  | packetReceived (p : List Nat)
  | errorOccurred (msg : String)
deriving DecidableEq

/-- What one iteration of `SerialWorker.run`'s while-loop observes
(`connection_workers.py:40-62`): the port reports closed, or
`waitForReadyRead` yielded some decoded lines, or nothing arrived. -/
inductive SerialCond where
  | portClosed
  | linesReady (ls : List String)
  | idle

/-- One iteration of the `SerialWorker.run` loop body
(`connection_workers.py:40-62`): emitted signals, and whether the loop
continues (`false` = `break`). A closed port emits
`error_occurred("Device disconnected.")` and breaks; ready lines are each
emitted when non-empty after stripping. -/
def serialLoopBody : SerialCond → List WorkerMsg × Bool
  | .portClosed => ([.errorOccurred "Device disconnected."], false)
  | .linesReady ls => ((ls.filter (fun l => l ≠ "")).map .lineReceived, true)
  | .idle => ([], true)

/-- What one iteration of `UdpWorker.run`'s while-loop observes
(`connection_workers.py:107-119`): a datagram, a `socket.timeout`, or any
other socket exception with its message. -/
inductive UdpCond where
  | datagram (p : List Nat)
  | sockTimeout
  | sockError (e : String)

/-- One iteration of the `UdpWorker.run` loop body
(`connection_workers.py:107-119`): a non-empty datagram is emitted as
`packet_received`; a timeout just loops; any other exception is printed to
the console and the loop CONTINUES — no `error_occurred` signal is emitted
and the loop is not exited. -/
def udpLoopBody : UdpCond → List WorkerMsg × Bool
  | .datagram p => (if p.isEmpty then [] else [.packetReceived p], true)
  | .sockTimeout => ([], true)
  | .sockError _ => ([], true)

/-! ### Concrete packets used by witnesses and counterexamples -/

/-- A well-formed 17-byte packet: id 0, w = 1.0, x = y = z = 0.0
(float32 1.0 is the little-endian bytes 00 00 80 3F). -/
def onePacket : List Nat :=
  [0, 0, 0, 128, 63, 0, 0, 0, 0, 0, 0, 0, 0, 0, 0, 0, 0]

/-- A 17-byte packet for id 2 whose four floats are all 0.0: zero norm. -/
def zeroPacket2 : List Nat := 2 :: List.replicate 16 0

theorem rawQuat_onePacket : rawQuat onePacket = ⟨1, 0, 0, 0⟩ := by
  norm_num [rawQuat, onePacket, decodeF32, leNat]

theorem norm_onePacket : (rawQuat onePacket).norm = 1 := by
  rw [rawQuat_onePacket]
  norm_num [Quat.norm, Quat.normSq]

theorem rawQuat_zeroPacket2 : rawQuat zeroPacket2 = ⟨0, 0, 0, 0⟩ := by
  norm_num [rawQuat, zeroPacket2, decodeF32, leNat, List.replicate]

theorem norm_zeroPacket2 : (rawQuat zeroPacket2).norm = 0 := by
  rw [rawQuat_zeroPacket2]
  norm_num [Quat.norm, Quat.normSq]

/-! ### Field-preservation lemmas for the shared receipt prefix -/

theorem markReceipt_imuData (st : AppState) (now : ℚ) :
    (markReceipt st now).imuData = st.imuData := by
  simp only [markReceipt]; split <;> rfl

theorem markReceipt_visWidgets (st : AppState) (now : ℚ) :
    (markReceipt st now).visWidgets = st.visWidgets := by
  simp only [markReceipt]; split <;> rfl

theorem markReceipt_visPanels (st : AppState) (now : ℚ) :
    (markReceipt st now).visPanels = st.visPanels := by
  simp only [markReceipt]; split <;> rfl

theorem markReceipt_newDataIds (st : AppState) (now : ℚ) :
    (markReceipt st now).newDataIds = st.newDataIds := by
  simp only [markReceipt]; split <;> rfl

theorem markReceipt_workerRunning (st : AppState) (now : ℚ) :
    (markReceipt st now).workerRunning = st.workerRunning := by
  simp only [markReceipt]; split <;> rfl

theorem markReceipt_status_of_connecting (st : AppState) (now : ℚ)
    (h : st.status = .connecting) :
    (markReceipt st now).status = .ok := by
  simp only [markReceipt]
  rw [if_pos (show ({ st with lastPacketTimestamp := now } : AppState).status = .connecting from h)]

theorem markReceipt_timeoutTimerOn_of_connecting (st : AppState) (now : ℚ)
    (h : st.status = .connecting) :
    (markReceipt st now).timeoutTimerOn = true := by
  simp only [markReceipt]
  rw [if_pos (show ({ st with lastPacketTimestamp := now } : AppState).status = .connecting from h)]

/-- The binary handler never changes the status after the receipt prefix. -/
theorem hrp_status (st : AppState) (now : ℚ) (p : List Nat) :
    (handle_received_packet st now p).1.status = (markReceipt st now).status := by
  simp only [handle_received_packet, storeSample, add_new_imu]
  split_ifs <;> rfl

/-- The ASCII handler never changes the status after the receipt prefix. -/
theorem hrl_status (st : AppState) (now : ℚ) (line : String)
    (elems? : Option (List ℚ)) :
    (handle_received_line st now line elems?).1.status = (markReceipt st now).status := by
  rcases elems? with _ | vs
  · rfl
  · simp only [handle_received_line, storeSample, add_new_imu]
    split_ifs <;> rfl

/-- The binary handler never changes the timeout-timer flag after the
receipt prefix. -/
theorem hrp_timeoutTimerOn (st : AppState) (now : ℚ) (p : List Nat) :
    (handle_received_packet st now p).1.timeoutTimerOn
      = (markReceipt st now).timeoutTimerOn := by
  simp only [handle_received_packet, storeSample, add_new_imu]
  split_ifs <;> rfl

theorem add_new_imu_timeoutTimerOn (st : AppState) (i : Nat) :
    (add_new_imu st i).timeoutTimerOn = st.timeoutTimerOn := by
  simp only [add_new_imu]; split <;> rfl

theorem foldl_add_new_imu_timeoutTimerOn (l : List Nat) (st : AppState) :
    (l.foldl add_new_imu st).timeoutTimerOn = st.timeoutTimerOn := by
  induction l generalizing st with
  | nil => rfl
  | cons a l ih => rw [List.foldl_cons, ih, add_new_imu_timeoutTimerOn]

theorem addImus_timeoutTimerOn (st : AppState) (n : Nat) :
    (addImus st n).timeoutTimerOn = st.timeoutTimerOn :=
  foldl_add_new_imu_timeoutTimerOn _ _

/-- A state in the middle of a connection attempt: status "connecting". -/
noncomputable def stConnecting : AppState :=
  { initState with status := .connecting }

/-- C1 counterexample: the 1-byte buffer `[0]` fails to decode (wrong
length, `parsed = false`), yet receiving it while the status is
"connecting" still transitions the status to "ok"/Connected
(`imu_visualiser.py:361-364` run before any parsing). -/
theorem C1_counterexample :
    stConnecting.status = .connecting ∧
    (handle_received_packet stConnecting 0 [0]).2.parsed = false ∧
    (handle_received_packet stConnecting 0 [0]).1.status = .ok := by
  refine ⟨rfl, rfl, ?_⟩
  rw [hrp_status]
  exact markReceipt_status_of_connecting _ _ rfl

/-- C1 (amended): the Connecting→Connected transition fires on EVERY
received transport unit (binary packet or ASCII line), before and
regardless of decode success — receipt alone triggers it. -/
theorem C1_receipt_triggers_connected (st : AppState) (now : ℚ) (p : List Nat)
    (line : String) (elems? : Option (List ℚ)) (h : st.status = .connecting) :
    (handle_received_packet st now p).1.status = .ok ∧
    (handle_received_line st now line elems?).1.status = .ok := by
  rw [hrp_status, hrl_status]
  exact ⟨markReceipt_status_of_connecting st now h,
         markReceipt_status_of_connecting st now h⟩

/-- Witness for C1's amended theorem at a concrete connecting state. -/
theorem C1_receipt_triggers_connected_witness :
    stConnecting.status = .connecting ∧
    ((handle_received_packet stConnecting 0 [0]).1.status = .ok ∧
     (handle_received_line stConnecting 0 "junk" none).1.status = .ok) :=
  ⟨rfl, C1_receipt_triggers_connected stConnecting 0 [0] "junk" none rfl⟩

/-- C5: a binary buffer whose length is not 17 bytes is rejected with no
mutation of `imu_data`, `vis_widgets`, `vis_panels` or the dirty set, and a
malformed-packet log entry with `parsed = false` is emitted
(`imu_visualiser.py:370`, `:393`, `:398`); the handler is total (cannot
throw). -/
theorem C5_wrong_length_no_mutation (st : AppState) (now : ℚ) (p : List Nat)
    (h : p.length ≠ 17) :
    (handle_received_packet st now p).1.imuData = st.imuData ∧
    (handle_received_packet st now p).1.visWidgets = st.visWidgets ∧
    (handle_received_packet st now p).1.visPanels = st.visPanels ∧
    (handle_received_packet st now p).1.newDataIds = st.newDataIds ∧
    (handle_received_packet st now p).2.parsed = false ∧
    (handle_received_packet st now p).2.text = LogText.malformed p.length := by
  have hne : ¬(p.length = PACKET_SIZE) := by simpa [PACKET_SIZE] using h
  refine ⟨?_, ?_, ?_, ?_, ?_, ?_⟩ <;>
    simp only [handle_received_packet, if_neg hne] <;>
    simp [markReceipt_imuData, markReceipt_visWidgets, markReceipt_visPanels,
      markReceipt_newDataIds]

/-- Witness for C5 at the concrete 1-byte buffer `[0]`. -/
theorem C5_wrong_length_no_mutation_witness :
    ([0] : List Nat).length ≠ 17 ∧
    ((handle_received_packet initState 0 [0]).1.imuData = initState.imuData ∧
     (handle_received_packet initState 0 [0]).1.visWidgets = initState.visWidgets ∧
     (handle_received_packet initState 0 [0]).1.visPanels = initState.visPanels ∧
     (handle_received_packet initState 0 [0]).1.newDataIds = initState.newDataIds ∧
     (handle_received_packet initState 0 [0]).2.parsed = false ∧
     (handle_received_packet initState 0 [0]).2.text
       = LogText.malformed ([0] : List Nat).length) :=
  ⟨by decide, C5_wrong_length_no_mutation initState 0 [0] (by decide)⟩

/-- C8: when the worker-finished bookkeeping (`on_worker_finished`,
`imu_visualiser.py:309-325`) runs with the indicator already in "error",
the guard at `imu_visualiser.py:318` keeps both the "error" status and the
error message text; only the worker reference is dropped. -/
theorem C8_error_status_sticky (st : AppState) (h : st.status = .error) :
    (on_worker_finished st).status = .error ∧
    (on_worker_finished st).infoText = st.infoText ∧
    (on_worker_finished st).workerRunning = false := by
  simp [on_worker_finished, h]

/-- A state showing a sticky error message, as left by the watchdog. -/
noncomputable def stErrored : AppState :=
  { initState with status := .error, infoText := "Connection timed out" }

/-- Witness for C8 at a concrete error state. -/
theorem C8_error_status_sticky_witness :
    stErrored.status = .error ∧
    ((on_worker_finished stErrored).status = .error ∧
     (on_worker_finished stErrored).infoText = stErrored.infoText ∧
     (on_worker_finished stErrored).workerRunning = false) :=
  ⟨rfl, C8_error_status_sticky stErrored rfl⟩

/-- C9 counterexample: a UDP socket error during an active session
(`connection_workers.py:116-119`) emits NO signal and the read loop
CONTINUES — contradicting "the transport worker emits an error
notification … and the worker's read loop exits". -/
theorem C9_counterexample :
    (udpLoopBody (UdpCond.sockError "recv failed")).1 = [] ∧
    (udpLoopBody (UdpCond.sockError "recv failed")).2 = true :=
  ⟨rfl, rfl⟩

/-- C9 (amended): a mid-session SERIAL link failure is fatal — the worker
emits `error_occurred("Device disconnected.")` and its loop exits
(`connection_workers.py:40-44`), and the connected handler
`handle_serial_error` moves the status to Error, stops both timers and
stops the worker (`imu_visualiser.py:301-307`); a UDP socket error,
however, is only printed: no signal is emitted and the UDP loop continues
(`connection_workers.py:116-119`). -/
theorem C9_link_loss_behavior (st : AppState) (msg e : String) :
    serialLoopBody SerialCond.portClosed
      = ([WorkerMsg.errorOccurred "Device disconnected."], false) ∧
    (handle_serial_error st msg).status = .error ∧
    (handle_serial_error st msg).infoText = msg ∧
    (handle_serial_error st msg).renderTimerOn = false ∧
    (handle_serial_error st msg).timeoutTimerOn = false ∧
    (handle_serial_error st msg).workerRunning = false ∧
    udpLoopBody (UdpCond.sockError e) = ([], true) :=
  ⟨rfl, rfl, rfl, rfl, rfl, rfl, rfl⟩

/-- C7 counterexample: a `connect()` from the initial Disconnected state
(test mode) leaves the 1 Hz timeout-check timer stopped — only the worker
and the render timer are started (`imu_visualiser.py:290-293`); the
timeout timer is armed later, by `handle_received_packet`
(`imu_visualiser.py:364`). -/
theorem C7_counterexample :
    initState.workerRunning = false ∧
    (toggle_connection initState true true 2 0).workerRunning = true ∧
    (toggle_connection initState true true 2 0).status = .connecting ∧
    (toggle_connection initState true true 2 0).timeoutTimerOn = false := by
  refine ⟨rfl, ?_, ?_, ?_⟩ <;> rfl

/-- C7 (amended): `connect()` taken with no worker running (both the UDP
test-mode and the serial branch with a port selected) starts the transport
worker and the 16 ms render timer and sets the status to "connecting", but
leaves the timeout-check timer as it was; that timer is armed only upon
the first received transport unit while connecting. -/
theorem C7_connect_behavior (st : AppState) (numImus : Nat) (now : ℚ)
    (p : List Nat) (h : st.workerRunning = false) :
    (toggle_connection st true true numImus now).workerRunning = true ∧
    (toggle_connection st true true numImus now).renderTimerOn = true ∧
    (toggle_connection st true true numImus now).status = .connecting ∧
    (toggle_connection st true true numImus now).timeoutTimerOn
      = st.timeoutTimerOn ∧
    (toggle_connection st false true numImus now).workerRunning = true ∧
    (toggle_connection st false true numImus now).renderTimerOn = true ∧
    (toggle_connection st false true numImus now).status = .connecting ∧
    (toggle_connection st false true numImus now).timeoutTimerOn
      = st.timeoutTimerOn ∧
    (st.status = .connecting →
      (handle_received_packet st now p).1.timeoutTimerOn = true) := by
  refine ⟨?_, ?_, ?_, ?_, ?_, ?_, ?_, ?_, fun hc => ?_⟩
  · simp [toggle_connection, h]
  · simp [toggle_connection, h]
  · simp [toggle_connection, h]
  · simp [toggle_connection, h, addImus_timeoutTimerOn, clear_imu_widgets]
  · simp [toggle_connection, h]
  · simp [toggle_connection, h]
  · simp [toggle_connection, h]
  · simp [toggle_connection, h, addImus_timeoutTimerOn, clear_imu_widgets]
  · rw [hrp_timeoutTimerOn]
    exact markReceipt_timeoutTimerOn_of_connecting st now hc

/-- Witness for C7's amended theorem at the initial state. -/
theorem C7_connect_behavior_witness :
    initState.workerRunning = false ∧
    ((toggle_connection initState true true 2 0).workerRunning = true ∧
     (toggle_connection initState true true 2 0).renderTimerOn = true ∧
     (toggle_connection initState true true 2 0).status = .connecting ∧
     (toggle_connection initState true true 2 0).timeoutTimerOn
       = initState.timeoutTimerOn ∧
     (toggle_connection initState false true 2 0).workerRunning = true ∧
     (toggle_connection initState false true 2 0).renderTimerOn = true ∧
     (toggle_connection initState false true 2 0).status = .connecting ∧
     (toggle_connection initState false true 2 0).timeoutTimerOn
       = initState.timeoutTimerOn ∧
     (initState.status = .connecting →
       (handle_received_packet initState 0 [0]).1.timeoutTimerOn = true)) :=
  ⟨rfl, C7_connect_behavior initState 2 0 [0] rfl⟩

/-- Branch characterization: a 17-byte packet whose quaternion fails the
norm test takes the zero-norm rejection branch (`imu_visualiser.py:390-391`). -/
theorem hrp_zero_norm (st : AppState) (now : ℚ) (p : List Nat)
    (hlen : p.length = 17) (hn : ¬((rawQuat p).norm > 1e-6)) :
    handle_received_packet st now p
      = (markReceipt st now, ⟨.zeroNorm (unpackId p), false⟩) := by
  simp only [handle_received_packet, PACKET_SIZE]
  rw [if_pos hlen, if_neg hn]

/-- Branch characterization: a 4-field ASCII record whose quaternion fails
the norm test leaves the state at the receipt prefix with `parsed = false`
(`imu_visualiser.py:415`, fall-through to `:429`). -/
theorem hrl_zero_norm (st : AppState) (now : ℚ) (line : String) (vs : List ℚ)
    (hvs : vs.length = 4) (hn : ¬((quatOfList vs).norm > 1e-6)) :
    handle_received_line st now line (some vs)
      = (markReceipt st now, ⟨.serialLine line, false⟩) := by
  simp only [handle_received_line]
  rw [if_pos hvs, if_neg hn]

/-- C4 counterexample: the zero-norm binary record `zeroPacket2` received
while the status is "connecting" is rejected (`parsed = false`) yet DOES
alter the connection state: the status flips from "connecting" to
"ok"/Connected, because `imu_visualiser.py:361-364` runs before the norm
check. -/
theorem C4_counterexample :
    (rawQuat zeroPacket2).norm ≤ 1e-6 ∧
    stConnecting.status = .connecting ∧
    (handle_received_packet stConnecting 0 zeroPacket2).2.parsed = false ∧
    (handle_received_packet stConnecting 0 zeroPacket2).1.status = .ok := by
  have hn : ¬((rawQuat zeroPacket2).norm > 1e-6) := by
    rw [norm_zeroPacket2]; norm_num
  refine ⟨by rw [norm_zeroPacket2]; norm_num, rfl, ?_, ?_⟩
  · rw [hrp_zero_norm stConnecting 0 zeroPacket2 (by decide) hn]
  · rw [hrp_status]
    exact markReceipt_status_of_connecting _ _ rfl

/-- C4 (amended): a record (binary or ASCII) whose quaternion has norm
≤ 1e-6 leaves the orientation registry completely unchanged — no entry
created, no value overwritten, no dirty flag set — and the emitted log
entry has `parsed = false`; the connection status, however, is NOT
guaranteed unchanged: if the status was "connecting", the mere receipt of
the record still flips it to "ok"/Connected. -/
theorem C4_zero_norm_rejected (st : AppState) (now : ℚ) (p : List Nat)
    (line : String) (vs : List ℚ)
    (hlen : p.length = 17) (hn : (rawQuat p).norm ≤ 1e-6)
    (hvs : vs.length = 4) (hnl : (quatOfList vs).norm ≤ 1e-6) :
    (handle_received_packet st now p).1.imuData = st.imuData ∧
    (handle_received_packet st now p).1.visWidgets = st.visWidgets ∧
    (handle_received_packet st now p).1.visPanels = st.visPanels ∧
    (handle_received_packet st now p).1.newDataIds = st.newDataIds ∧
    (handle_received_packet st now p).2.parsed = false ∧
    (handle_received_line st now line (some vs)).1.imuData = st.imuData ∧
    (handle_received_line st now line (some vs)).1.visWidgets = st.visWidgets ∧
    (handle_received_line st now line (some vs)).1.visPanels = st.visPanels ∧
    (handle_received_line st now line (some vs)).1.newDataIds = st.newDataIds ∧
    (handle_received_line st now line (some vs)).2.parsed = false ∧
    (st.status = .connecting →
      (handle_received_packet st now p).1.status = .ok ∧
      (handle_received_line st now line (some vs)).1.status = .ok) := by
  rw [hrp_zero_norm st now p hlen (not_lt.mpr hn),
      hrl_zero_norm st now line vs hvs (not_lt.mpr hnl)]
  exact ⟨markReceipt_imuData st now, markReceipt_visWidgets st now,
    markReceipt_visPanels st now, markReceipt_newDataIds st now, rfl,
    markReceipt_imuData st now, markReceipt_visWidgets st now,
    markReceipt_visPanels st now, markReceipt_newDataIds st now, rfl,
    fun hc => ⟨markReceipt_status_of_connecting st now hc,
               markReceipt_status_of_connecting st now hc⟩⟩

/-- Witness for C4's amended theorem: the all-zero record in both formats. -/
theorem C4_zero_norm_rejected_witness :
    (zeroPacket2.length = 17 ∧ (rawQuat zeroPacket2).norm ≤ 1e-6 ∧
     ([(0 : ℚ), 0, 0, 0] : List ℚ).length = 4 ∧
     (quatOfList [(0 : ℚ), 0, 0, 0]).norm ≤ 1e-6) ∧
    ((handle_received_packet stConnecting 0 zeroPacket2).1.imuData
        = stConnecting.imuData ∧
     (handle_received_packet stConnecting 0 zeroPacket2).1.visWidgets
        = stConnecting.visWidgets ∧
     (handle_received_packet stConnecting 0 zeroPacket2).1.visPanels
        = stConnecting.visPanels ∧
     (handle_received_packet stConnecting 0 zeroPacket2).1.newDataIds
        = stConnecting.newDataIds ∧
     (handle_received_packet stConnecting 0 zeroPacket2).2.parsed = false ∧
     (handle_received_line stConnecting 0 "0,0,0,0"
        (some [(0 : ℚ), 0, 0, 0])).1.imuData = stConnecting.imuData ∧
     (handle_received_line stConnecting 0 "0,0,0,0"
        (some [(0 : ℚ), 0, 0, 0])).1.visWidgets = stConnecting.visWidgets ∧
     (handle_received_line stConnecting 0 "0,0,0,0"
        (some [(0 : ℚ), 0, 0, 0])).1.visPanels = stConnecting.visPanels ∧
     (handle_received_line stConnecting 0 "0,0,0,0"
        (some [(0 : ℚ), 0, 0, 0])).1.newDataIds = stConnecting.newDataIds ∧
     (handle_received_line stConnecting 0 "0,0,0,0"
        (some [(0 : ℚ), 0, 0, 0])).2.parsed = false ∧
     (stConnecting.status = .connecting →
       (handle_received_packet stConnecting 0 zeroPacket2).1.status = .ok ∧
       (handle_received_line stConnecting 0 "0,0,0,0"
         (some [(0 : ℚ), 0, 0, 0])).1.status = .ok)) := by
  have hq : (quatOfList [(0 : ℚ), 0, 0, 0]).norm ≤ 1e-6 := by
    norm_num [quatOfList, Quat.norm, Quat.normSq]
  have hp : (rawQuat zeroPacket2).norm ≤ 1e-6 := by
    rw [norm_zeroPacket2]; norm_num
  exact ⟨⟨by decide, hp, by decide, hq⟩,
    C4_zero_norm_rejected stConnecting 0 zeroPacket2 "0,0,0,0"
      [(0 : ℚ), 0, 0, 0] (by decide) hp (by decide) hq⟩

theorem markReceipt_lastPacket (st : AppState) (now : ℚ) :
    (markReceipt st now).lastPacketTimestamp = now := by
  simp only [markReceipt]; split <;> rfl

theorem markReceipt_renderTimerOn (st : AppState) (now : ℚ) :
    (markReceipt st now).renderTimerOn = st.renderTimerOn := by
  simp only [markReceipt]; split <;> rfl

theorem markReceipt_status_of_ok (st : AppState) (now : ℚ)
    (h : st.status = .ok) :
    (markReceipt st now).status = .ok := by
  simp only [markReceipt]; split
  · rfl
  · exact h

/-- Every branch of the binary handler stamps `last_packet_timestamp = now`. -/
theorem hrp_lastPacket (st : AppState) (now : ℚ) (p : List Nat) :
    (handle_received_packet st now p).1.lastPacketTimestamp = now := by
  have h : (handle_received_packet st now p).1.lastPacketTimestamp
      = (markReceipt st now).lastPacketTimestamp := by
    simp only [handle_received_packet, storeSample, add_new_imu]
    split_ifs <;> rfl
  rw [h, markReceipt_lastPacket]

theorem hrp_renderTimerOn (st : AppState) (now : ℚ) (p : List Nat) :
    (handle_received_packet st now p).1.renderTimerOn = st.renderTimerOn := by
  have h : (handle_received_packet st now p).1.renderTimerOn
      = (markReceipt st now).renderTimerOn := by
    simp only [handle_received_packet, storeSample, add_new_imu]
    split_ifs <;> rfl
  rw [h, markReceipt_renderTimerOn]

theorem hrp_workerRunning (st : AppState) (now : ℚ) (p : List Nat) :
    (handle_received_packet st now p).1.workerRunning = st.workerRunning := by
  have h : (handle_received_packet st now p).1.workerRunning
      = (markReceipt st now).workerRunning := by
    simp only [handle_received_packet, storeSample, add_new_imu]
    split_ifs <;> rfl
  rw [h, markReceipt_workerRunning]

/-- Success path of the binary handler (`imu_visualiser.py:375-387`): a
17-byte packet passing the norm test, in a state where id presence in
`vis_widgets` and `imu_data` agree, is parsed, stored normalized, and
marked dirty; its widget entry exists afterwards. -/
theorem hrp_success (st : AppState) (now : ℚ) (p : List Nat)
    (hlen : p.length = 17) (hn : (rawQuat p).norm > 1e-6)
    (hwd : (st.imuData (unpackId p)).isSome = st.visWidgets (unpackId p)) :
    (handle_received_packet st now p).2.parsed = true ∧
    (handle_received_packet st now p).1.imuData (unpackId p)
      = some (rawQuat p).normalize ∧
    (handle_received_packet st now p).1.newDataIds (unpackId p) = true ∧
    (handle_received_packet st now p).1.visWidgets (unpackId p) = true := by
  have hI := markReceipt_imuData st now
  have hW := markReceipt_visWidgets st now
  simp only [handle_received_packet, PACKET_SIZE]
  rw [if_pos hlen, if_pos hn]
  by_cases hd : ((markReceipt st now).imuData (unpackId p)).isNone
  · rw [if_pos hd]
    have hnone : st.imuData (unpackId p) = none := by
      rw [← hI]; exact Option.isNone_iff_eq_none.mp hd
    have hvw : (markReceipt st now).visWidgets (unpackId p) = false := by
      rw [hW, ← hwd, hnone]; rfl
    simp [add_new_imu, storeSample, hvw]
  · rw [if_neg hd]
    have hsome : ((markReceipt st now).imuData (unpackId p)).isSome = true := by
      rcases h : (markReceipt st now).imuData (unpackId p) with _ | q
      · rw [h] at hd; exact absurd rfl hd
      · rfl
    rw [if_pos hsome]
    have hvw : (markReceipt st now).visWidgets (unpackId p) = true := by
      rw [hW, ← hwd, ← hI]; exact hsome
    simp [storeSample, hvw]

/-- A live Connected session: worker running, both timers running. -/
noncomputable def stConnectedRun : AppState :=
  { initState with
    status := .ok, workerRunning := true, renderTimerOn := true,
    timeoutTimerOn := true }

/-- State after a VALID sample received at t = 0 in the live session. -/
noncomputable def stAfterValid : AppState :=
  (handle_received_packet stConnectedRun 0 onePacket).1

/-- State after an additional INVALID (zero-norm) packet at t = 2.5. -/
noncomputable def stAfterInvalid : AppState :=
  (handle_received_packet stAfterValid (5/2) zeroPacket2).1

/-- C3 counterexample: in a Connected session, the last VALID sample is at
t = 0 and a zero-norm (invalid) packet arrives at t = 2.5; at the t = 3
watchdog check the last valid-sample timestamp is 3.0 s old (> 2.0), yet
`check_connection_timeout` does nothing — the watchdog compares against
`last_packet_timestamp`, which every received unit refreshes
(`imu_visualiser.py:361`, `:297`). -/
theorem C3_counterexample :
    (handle_received_packet stConnectedRun 0 onePacket).2.parsed = true ∧
    (handle_received_packet stAfterValid (5/2) zeroPacket2).2.parsed = false ∧
    ((3 : ℚ) - 0 > 2) ∧
    check_connection_timeout stAfterInvalid 3 = stAfterInvalid ∧
    (check_connection_timeout stAfterInvalid 3).status = .ok ∧
    (check_connection_timeout stAfterInvalid 3).renderTimerOn = true := by
  have hval := hrp_success stConnectedRun 0 onePacket (by decide)
    (by rw [norm_onePacket]; norm_num) rfl
  have hts : stAfterInvalid.lastPacketTimestamp = 5/2 := hrp_lastPacket _ _ _
  have hno : ¬((3 : ℚ) - stAfterInvalid.lastPacketTimestamp > 2) := by
    rw [hts]; norm_num
  have hcheck : check_connection_timeout stAfterInvalid 3 = stAfterInvalid := by
    simp [check_connection_timeout, hno]
  have hs1 : stAfterValid.status = .ok := by
    rw [stAfterValid, hrp_status]
    exact markReceipt_status_of_ok _ _ rfl
  have hs2 : stAfterInvalid.status = .ok := by
    rw [stAfterInvalid, hrp_status]
    exact markReceipt_status_of_ok _ _ hs1
  have hr1 : stAfterValid.renderTimerOn = true := by
    rw [stAfterValid, hrp_renderTimerOn]; rfl
  have hr2 : stAfterInvalid.renderTimerOn = true := by
    rw [stAfterInvalid, hrp_renderTimerOn]; exact hr1
  refine ⟨hval.1, ?_, by norm_num, hcheck, ?_, ?_⟩
  · rw [hrp_zero_norm stAfterValid (5/2) zeroPacket2 (by decide)
      (by rw [norm_zeroPacket2]; norm_num)]
  · rw [hcheck]; exact hs2
  · rw [hcheck]; exact hr2

/-- C3 (amended): the watchdog uses the last RECEIVED-unit timestamp
(refreshed even by undecodable units), not a valid-sample timestamp: for a
Connected session with a running worker whose `last_packet_timestamp` is
more than 2.0 s older than the check time, the next watchdog check moves
the status to Error ("Connection timed out"), stops both the render timer
and the timeout timer, and stops the worker. -/
theorem C3_watchdog_fires_on_stale_packets (st : AppState) (now : ℚ)
    (hw : st.workerRunning = true) (hs : st.status = .ok)
    (hold : now - st.lastPacketTimestamp > 2) :
    (check_connection_timeout st now).status = .error ∧
    (check_connection_timeout st now).infoText = "Connection timed out" ∧
    (check_connection_timeout st now).renderTimerOn = false ∧
    (check_connection_timeout st now).timeoutTimerOn = false ∧
    (check_connection_timeout st now).workerRunning = false := by
  simp [check_connection_timeout, hw, hold, handle_serial_error]

/-- Witness for C3's amended theorem: stale at t = 3 with no packet since 0. -/
theorem C3_watchdog_fires_on_stale_packets_witness :
    (stConnectedRun.workerRunning = true ∧ stConnectedRun.status = .ok ∧
     (3 : ℚ) - stConnectedRun.lastPacketTimestamp > 2) ∧
    ((check_connection_timeout stConnectedRun 3).status = .error ∧
     (check_connection_timeout stConnectedRun 3).infoText
       = "Connection timed out" ∧
     (check_connection_timeout stConnectedRun 3).renderTimerOn = false ∧
     (check_connection_timeout stConnectedRun 3).timeoutTimerOn = false ∧
     (check_connection_timeout stConnectedRun 3).workerRunning = false) := by
  have hold : (3 : ℚ) - stConnectedRun.lastPacketTimestamp > 2 := by
    show (3 : ℚ) - 0 > 2; norm_num
  exact ⟨⟨rfl, rfl, hold⟩,
    C3_watchdog_fires_on_stale_packets stConnectedRun 3 rfl rfl hold⟩

/-- Success path of the ASCII handler (`imu_visualiser.py:411-425`): a
4-field record passing the norm test is parsed, and id 0's registry entry
is overwritten with the normalized quaternion and marked dirty. -/
theorem hrl_success (st : AppState) (now : ℚ) (line : String) (vs : List ℚ)
    (hvs : vs.length = 4) (hn : (quatOfList vs).norm > 1e-6) :
    (handle_received_line st now line (some vs)).2.parsed = true ∧
    (handle_received_line st now line (some vs)).1.imuData 0
      = some (quatOfList vs).normalize ∧
    (handle_received_line st now line (some vs)).1.newDataIds 0 = true := by
  simp only [handle_received_line]
  rw [if_pos hvs, if_pos hn]
  by_cases hd : ((markReceipt st now).imuData 0).isNone
  · rw [if_pos hd]; simp [storeSample, add_new_imu]
  · rw [if_neg hd]; simp [storeSample]

/-- The sum of the squares of the normalized components is exactly 1 when
the norm test passed (the idealised-real counterpart of "unit norm within
floating-point tolerance"). -/
theorem normSq_normalize (q : Quat) (h : q.norm > 1e-6) :
    q.normalize.normSq = 1 := by
  have h0 : (0:ℝ) ≤ q.w ^ 2 + q.x ^ 2 + q.y ^ 2 + q.z ^ 2 := by positivity
  have hpos : (0:ℝ) < q.w ^ 2 + q.x ^ 2 + q.y ^ 2 + q.z ^ 2 := by
    have h1 : (0:ℝ) < Real.sqrt (q.w ^ 2 + q.x ^ 2 + q.y ^ 2 + q.z ^ 2) := by
      have h2 := h
      unfold Quat.norm Quat.normSq at h2
      linarith
    exact Real.sqrt_pos.mp h1
  simp only [Quat.normalize, Quat.normSq, Quat.norm]
  rw [div_pow, div_pow, div_pow, div_pow, div_add_div_same, div_add_div_same,
      div_add_div_same, Real.sq_sqrt h0, div_self (ne_of_gt hpos)]

/-- The stored (normalized) quaternion has norm exactly 1. -/
theorem norm_normalize (q : Quat) (h : q.norm > 1e-6) :
    q.normalize.norm = 1 := by
  unfold Quat.norm
  rw [normSq_normalize q h, Real.sqrt_one]

/-- C6: every valid record (binary with 17 bytes, or ASCII with 4 fields)
whose raw quaternion passes the norm test is stored as the component-wise
division of the raw quaternion by its norm, hence with unit norm; and the
render path (`update_gl_and_ui`) hands out the stored value unmodified —
it never renormalizes. -/
theorem C6_normalization_at_ingestion (st : AppState) (now : ℚ)
    (p : List Nat) (line : String) (vs : List ℚ)
    (hlen : p.length = 17) (hn : (rawQuat p).norm > 1e-6)
    (hwd : (st.imuData (unpackId p)).isSome = st.visWidgets (unpackId p))
    (hvs : vs.length = 4) (hnl : (quatOfList vs).norm > 1e-6) :
    (handle_received_packet st now p).1.imuData (unpackId p)
      = some ⟨(rawQuat p).w / (rawQuat p).norm, (rawQuat p).x / (rawQuat p).norm,
              (rawQuat p).y / (rawQuat p).norm, (rawQuat p).z / (rawQuat p).norm⟩ ∧
    ((rawQuat p).normalize).norm = 1 ∧
    (handle_received_line st now line (some vs)).1.imuData 0
      = some ⟨(quatOfList vs).w / (quatOfList vs).norm,
              (quatOfList vs).x / (quatOfList vs).norm,
              (quatOfList vs).y / (quatOfList vs).norm,
              (quatOfList vs).z / (quatOfList vs).norm⟩ ∧
    ((quatOfList vs).normalize).norm = 1 ∧
    (∀ s : AppState, ∀ i : Nat,
      (update_gl_and_ui s).2 i = none ∨ (update_gl_and_ui s).2 i = s.imuData i) := by
  refine ⟨(hrp_success st now p hlen hn hwd).2.1, norm_normalize _ hn,
          (hrl_success st now line vs hvs hnl).2.1, norm_normalize _ hnl,
          fun s i => ?_⟩
  by_cases hc : (s.newDataIds i && s.visWidgets i && (s.imuData i).isSome) = true
  · right; simp only [update_gl_and_ui]; rw [if_pos hc]
  · left; simp only [update_gl_and_ui]; rw [if_neg hc]

theorem quatOfList_one : quatOfList [(1 : ℚ), 0, 0, 0] = ⟨1, 0, 0, 0⟩ := by
  simp [quatOfList]

theorem norm_quatOfList_one : (quatOfList [(1 : ℚ), 0, 0, 0]).norm = 1 := by
  rw [quatOfList_one]
  norm_num [Quat.norm, Quat.normSq]

/-- Witness for C6 at the concrete unit records in both formats. -/
theorem C6_normalization_at_ingestion_witness :
    (onePacket.length = 17 ∧ (rawQuat onePacket).norm > 1e-6 ∧
     (initState.imuData (unpackId onePacket)).isSome
       = initState.visWidgets (unpackId onePacket) ∧
     ([(1 : ℚ), 0, 0, 0] : List ℚ).length = 4 ∧
     (quatOfList [(1 : ℚ), 0, 0, 0]).norm > 1e-6) ∧
    ((handle_received_packet initState 0 onePacket).1.imuData (unpackId onePacket)
      = some ⟨(rawQuat onePacket).w / (rawQuat onePacket).norm,
              (rawQuat onePacket).x / (rawQuat onePacket).norm,
              (rawQuat onePacket).y / (rawQuat onePacket).norm,
              (rawQuat onePacket).z / (rawQuat onePacket).norm⟩ ∧
     ((rawQuat onePacket).normalize).norm = 1 ∧
     (handle_received_line initState 0 "1,0,0,0"
        (some [(1 : ℚ), 0, 0, 0])).1.imuData 0
      = some ⟨(quatOfList [(1 : ℚ), 0, 0, 0]).w / (quatOfList [(1 : ℚ), 0, 0, 0]).norm,
              (quatOfList [(1 : ℚ), 0, 0, 0]).x / (quatOfList [(1 : ℚ), 0, 0, 0]).norm,
              (quatOfList [(1 : ℚ), 0, 0, 0]).y / (quatOfList [(1 : ℚ), 0, 0, 0]).norm,
              (quatOfList [(1 : ℚ), 0, 0, 0]).z / (quatOfList [(1 : ℚ), 0, 0, 0]).norm⟩ ∧
     ((quatOfList [(1 : ℚ), 0, 0, 0]).normalize).norm = 1 ∧
     (∀ s : AppState, ∀ i : Nat,
       (update_gl_and_ui s).2 i = none ∨ (update_gl_and_ui s).2 i = s.imuData i)) := by
  have hn : (rawQuat onePacket).norm > 1e-6 := by rw [norm_onePacket]; norm_num
  have hnl : (quatOfList [(1 : ℚ), 0, 0, 0]).norm > 1e-6 := by
    rw [norm_quatOfList_one]; norm_num
  exact ⟨⟨by decide, hn, rfl, by decide, hnl⟩,
    C6_normalization_at_ingestion initState 0 onePacket "1,0,0,0"
      [(1 : ℚ), 0, 0, 0] (by decide) hn rfl (by decide) hnl⟩

/-- A sequence of timed binary packets processed by the receive handler,
as delivered by queued signal emissions between two render ticks. -/
noncomputable def foldPackets (st : AppState) (tps : List (ℚ × List Nat)) : AppState :=
  tps.foldl (fun s tp => (handle_received_packet s tp.1 tp.2).1) st

/-- A binary packet that decodes successfully and addresses source `i`:
17 bytes, id byte `i`, norm above the rejection threshold. -/
def validPacketFor (i : Nat) (p : List Nat) : Prop :=
  p.length = 17 ∧ unpackId p = i ∧ (rawQuat p).norm > 1e-6

/-- After any run of valid samples for id `i`, the registry holds the
normalization of the LAST sample, the id is dirty, and its widget exists. -/
theorem foldPackets_conflation (i : Nat) (tps : List (ℚ × List Nat))
    (tpL : ℚ × List Nat) (st : AppState)
    (hv : ∀ tp ∈ tps, validPacketFor i tp.2) (hvL : validPacketFor i tpL.2)
    (hwd : (st.imuData i).isSome = st.visWidgets i) :
    (foldPackets st (tps ++ [tpL])).imuData i = some (rawQuat tpL.2).normalize ∧
    (foldPackets st (tps ++ [tpL])).newDataIds i = true ∧
    (foldPackets st (tps ++ [tpL])).visWidgets i = true := by
  induction tps generalizing st with
  | nil =>
    obtain ⟨hlen, hid, hn⟩ := hvL
    have h := hrp_success st tpL.1 tpL.2 hlen hn (by rw [hid]; exact hwd)
    simp only [foldPackets, List.nil_append, List.foldl_cons, List.foldl_nil]
    rw [← hid]
    exact ⟨h.2.1, h.2.2.1, h.2.2.2⟩
  | cons tp rest ih =>
    obtain ⟨hlen, hid, hn⟩ := hv tp (List.mem_cons_self tp rest)
    have h := hrp_success st tp.1 tp.2 hlen hn (by rw [hid]; exact hwd)
    have hwd' : (((handle_received_packet st tp.1 tp.2).1).imuData i).isSome
        = ((handle_received_packet st tp.1 tp.2).1).visWidgets i := by
      rw [← hid, h.2.1, h.2.2.2]; rfl
    have hrest := ih ((handle_received_packet st tp.1 tp.2).1)
      (fun tp2 htp2 => hv tp2 (List.mem_cons_of_mem tp htp2)) hwd'
    simpa [foldPackets, List.foldl_cons] using hrest

/-- C2: for every source id `i` and every sequence of N ≥ 1 valid samples
for `i` (written `tps ++ [tpL]`) arriving between two consecutive render
ticks, the next tick performs exactly one render call for `i` — the render
map of `update_gl_and_ui` yields `some q` — with `q` the normalization of
the MOST RECENT sample `tpL`; afterwards `i`'s dirty mark is cleared, and
the following tick performs no render call for `i`. -/
theorem C2_latest_value_conflation (i : Nat) (tps : List (ℚ × List Nat))
    (tpL : ℚ × List Nat) (st : AppState)
    (hv : ∀ tp ∈ tps, validPacketFor i tp.2) (hvL : validPacketFor i tpL.2)
    (hwd : (st.imuData i).isSome = st.visWidgets i) :
    (update_gl_and_ui (foldPackets st (tps ++ [tpL]))).2 i
      = some (rawQuat tpL.2).normalize ∧
    (update_gl_and_ui (foldPackets st (tps ++ [tpL]))).1.newDataIds i = false ∧
    (update_gl_and_ui ((update_gl_and_ui (foldPackets st (tps ++ [tpL]))).1)).2 i
      = none := by
  obtain ⟨hdata, hdirty, hwidg⟩ := foldPackets_conflation i tps tpL st hv hvL hwd
  refine ⟨?_, rfl, ?_⟩
  · simp [update_gl_and_ui, hdirty, hwidg, hdata]
  · simp [update_gl_and_ui]

/-- Witness for C2 with the single valid sample `onePacket` at time 0. -/
theorem C2_latest_value_conflation_witness :
    ((∀ tp ∈ ([] : List (ℚ × List Nat)), validPacketFor 0 tp.2) ∧
     validPacketFor 0 ((0 : ℚ), onePacket).2 ∧
     (initState.imuData 0).isSome = initState.visWidgets 0) ∧
    ((update_gl_and_ui (foldPackets initState
        (([] : List (ℚ × List Nat)) ++ [((0 : ℚ), onePacket)]))).2 0
      = some (rawQuat ((0 : ℚ), onePacket).2).normalize ∧
     (update_gl_and_ui (foldPackets initState
        (([] : List (ℚ × List Nat)) ++ [((0 : ℚ), onePacket)]))).1.newDataIds 0
      = false ∧
     (update_gl_and_ui ((update_gl_and_ui (foldPackets initState
        (([] : List (ℚ × List Nat)) ++ [((0 : ℚ), onePacket)]))).1)).2 0
      = none) := by
  have hvL : validPacketFor 0 ((0 : ℚ), onePacket).2 :=
    ⟨by decide, by decide, by rw [norm_onePacket]; norm_num⟩
  exact ⟨⟨fun tp htp => absurd htp (List.not_mem_nil tp), hvL, rfl⟩,
    C2_latest_value_conflation 0 [] ((0 : ℚ), onePacket) initState
      (fun tp htp => absurd htp (List.not_mem_nil tp)) hvL rfl⟩

/-- The cross-map invariant of the per-IMU state: `imu_data`,
`vis_widgets` and `vis_panels` have the same key set, and every dirty id
has a key (hence a widget). -/
def MapsInv (st : AppState) : Prop :=
  (∀ i, (st.imuData i).isSome = st.visWidgets i) ∧
  (∀ i, st.visPanels i = st.visWidgets i) ∧
  (∀ i, st.newDataIds i = true → st.visWidgets i = true)

theorem inv_add_new_imu (st : AppState) (i : Nat) (h : MapsInv st) :
    MapsInv (add_new_imu st i) := by
  obtain ⟨h1, h2, h3⟩ := h
  simp only [add_new_imu]
  split_ifs with hw
  · exact ⟨h1, h2, h3⟩
  · refine ⟨fun j => ?_, fun j => ?_, fun j hj => ?_⟩
    · by_cases hji : j = i
      · simp [hji]
      · simp [hji, h1 j]
    · by_cases hji : j = i
      · simp [hji]
      · simp [hji, h2 j]
    · by_cases hji : j = i
      · simp [hji]
      · simp only [if_neg hji]; exact h3 j hj

theorem inv_clear_imu_widgets (st : AppState) : MapsInv (clear_imu_widgets st) := by
  refine ⟨fun i => rfl, fun i => rfl, fun i hi => ?_⟩
  exact absurd hi Bool.false_ne_true

theorem inv_markReceipt (st : AppState) (now : ℚ) (h : MapsInv st) :
    MapsInv (markReceipt st now) := by
  obtain ⟨h1, h2, h3⟩ := h
  simp only [markReceipt]
  split
  · exact ⟨h1, h2, h3⟩
  · exact ⟨h1, h2, h3⟩

theorem inv_storeSample (st : AppState) (i : Nat) (q : Quat) (h : MapsInv st)
    (hw : st.visWidgets i = true) : MapsInv (storeSample st i q) := by
  obtain ⟨h1, h2, h3⟩ := h
  refine ⟨fun j => ?_, fun j => h2 j, fun j hj => ?_⟩
  · by_cases hji : j = i
    · subst hji; simp [storeSample, hw]
    · simp [storeSample, hji, h1 j]
  · by_cases hji : j = i
    · subst hji; exact hw
    · simp only [storeSample] at hj; rw [if_neg hji] at hj; exact h3 j hj

/-- From the invariant, a present registry entry has its widget. -/
theorem inv_widget_of_isSome (st : AppState) (i : Nat) (h : MapsInv st)
    (hs : (st.imuData i).isSome = true) : st.visWidgets i = true := by
  rw [← h.1 i]; exact hs

theorem inv_handle_received_packet (st : AppState) (now : ℚ) (p : List Nat)
    (h : MapsInv st) : MapsInv (handle_received_packet st now p).1 := by
  have hm := inv_markReceipt st now h
  simp only [handle_received_packet]
  split_ifs with hl hn hd hs hs
  · -- new id: add then store
    have hnone : ((markReceipt st now).imuData (unpackId p)) = none :=
      Option.isNone_iff_eq_none.mp hd
    exact inv_storeSample _ _ _ (inv_add_new_imu _ _ hm)
      (inv_widget_of_isSome _ _ (inv_add_new_imu _ _ hm) hs)
  · exact inv_add_new_imu _ _ hm
  · exact inv_storeSample _ _ _ hm (inv_widget_of_isSome _ _ hm hs)
  · exact hm
  · exact hm
  · exact hm

theorem inv_handle_received_line (st : AppState) (now : ℚ) (line : String)
    (elems? : Option (List ℚ)) (h : MapsInv st) :
    MapsInv (handle_received_line st now line elems?).1 := by
  have hm := inv_markReceipt st now h
  rcases elems? with _ | vs
  · exact hm
  · simp only [handle_received_line]
    split_ifs with h4 hn hd
    · -- id 0 absent: add then store
      have hw0 : (markReceipt st now).visWidgets 0 = false := by
        rw [← hm.1 0, Option.isNone_iff_eq_none.mp hd]; rfl
      have hw : (add_new_imu (markReceipt st now) 0).visWidgets 0 = true := by
        simp [add_new_imu, hw0]
      exact inv_storeSample _ _ _ (inv_add_new_imu _ _ hm) hw
    · -- id 0 present: store in place
      have hsome : ((markReceipt st now).imuData 0).isSome = true := by
        rcases hq : (markReceipt st now).imuData 0 with _ | q
        · rw [hq] at hd; exact absurd rfl hd
        · rfl
      exact inv_storeSample _ _ _ hm (inv_widget_of_isSome _ _ hm hsome)
    · exact hm
    · exact hm

theorem inv_foldl_add_new_imu (l : List Nat) (st : AppState) (h : MapsInv st) :
    MapsInv (l.foldl add_new_imu st) := by
  induction l generalizing st with
  | nil => exact h
  | cons a l ih => rw [List.foldl_cons]; exact ih _ (inv_add_new_imu st a h)

theorem inv_toggle_connection (st : AppState) (isTest portSel : Bool)
    (numImus : Nat) (now : ℚ) (h : MapsInv st) :
    MapsInv (toggle_connection st isTest portSel numImus now) := by
  simp only [toggle_connection]
  split_ifs with hw ht hp
  · exact inv_clear_imu_widgets _
  · exact inv_foldl_add_new_imu _ _ (inv_clear_imu_widgets st)
  · exact inv_foldl_add_new_imu _ _ (inv_clear_imu_widgets st)
  · exact inv_foldl_add_new_imu _ _ (inv_clear_imu_widgets st)

theorem inv_update_gl_and_ui (st : AppState) (h : MapsInv st) :
    MapsInv (update_gl_and_ui st).1 :=
  ⟨h.1, h.2.1, fun _ hi => absurd hi Bool.false_ne_true⟩

/-- C10: every per-IMU-state mutator — registering a new id, clearing on
connect/disconnect, the receive handlers, and the render tick — preserves
the invariant that `imu_data`, `vis_widgets` and `vis_panels` share one
key set and the dirty set is contained in it; consequently every id marked
dirty at render time has a display widget (and a registry entry) to
receive its orientation. -/
theorem C10_same_key_sets (st : AppState) (i numImus : Nat)
    (isTest portSel : Bool) (now : ℚ) (p : List Nat) (line : String)
    (elems? : Option (List ℚ)) (h : MapsInv st) :
    MapsInv (add_new_imu st i) ∧
    MapsInv (clear_imu_widgets st) ∧
    MapsInv (toggle_connection st isTest portSel numImus now) ∧
    MapsInv (handle_received_packet st now p).1 ∧
    MapsInv (handle_received_line st now line elems?).1 ∧
    MapsInv (update_gl_and_ui st).1 ∧
    (st.newDataIds i = true →
      st.visWidgets i = true ∧ st.visPanels i = true ∧
      (st.imuData i).isSome = true) :=
  ⟨inv_add_new_imu st i h, inv_clear_imu_widgets st,
   inv_toggle_connection st isTest portSel numImus now h,
   inv_handle_received_packet st now p h,
   inv_handle_received_line st now line elems? h,
   inv_update_gl_and_ui st h,
   fun hd => ⟨h.2.2 i hd, by rw [h.2.1 i]; exact h.2.2 i hd,
              by rw [h.1 i]; exact h.2.2 i hd⟩⟩

theorem inv_initState : MapsInv initState :=
  ⟨fun _ => rfl, fun _ => rfl, fun _ hi => absurd hi Bool.false_ne_true⟩

/-- Witness for C10 at the initial state and concrete operations. -/
theorem C10_same_key_sets_witness :
    MapsInv initState ∧
    (MapsInv (add_new_imu initState 0) ∧
     MapsInv (clear_imu_widgets initState) ∧
     MapsInv (toggle_connection initState true true 2 0) ∧
     MapsInv (handle_received_packet initState 0 onePacket).1 ∧
     MapsInv (handle_received_line initState 0 "1,0,0,0"
       (some [(1 : ℚ), 0, 0, 0])).1 ∧
     MapsInv (update_gl_and_ui initState).1 ∧
     (initState.newDataIds 0 = true →
       initState.visWidgets 0 = true ∧ initState.visPanels 0 = true ∧
       (initState.imuData 0).isSome = true)) :=
  ⟨inv_initState,
   C10_same_key_sets initState 0 2 true true 0 onePacket "1,0,0,0"
     (some [(1 : ℚ), 0, 0, 0]) inv_initState⟩
